import Mathlib

/-!
Shallow embedding of the stepper-motor controller (src/main.c).

The program drives a unipolar stepper motor via four coil pins using a fixed
8×4 half-step table, self-calibrates steps-per-revolution with an optical
sensor (falling-edge detection, three inter-edge intervals, truncating
average), and interprets the text commands "status", "calib", "run", "run N".

Machine integers are modelled as `Nat`: every value involved (step counters,
interval counts, parsed command arguments, steps-per-revolution) is
non-negative in all reachable states of the C program, where C `int`
division and `%` agree with `Nat` division on non-negative operands.
Hardware side effects (gpio writes) are modelled as the data written.
-/

/-- The four coil output pins, `{IN1, IN2, IN3, IN4} = {2, 3, 6, 13}`. -/
def coil_pins : List Nat := [2, 3, 6, 13]

/-- The fixed 8×4 half-step energization table from `main`. -/
def half_step : List (List Nat) :=
  [[1, 0, 0, 0],
   [1, 1, 0, 0],
   [0, 1, 0, 0],
   [0, 1, 1, 0],
   [0, 0, 1, 0],
   [0, 0, 1, 1],
   [0, 0, 0, 1],
   [1, 0, 0, 1]]

/-- `step & 7` from `step_motor`: the current phase of the half-step cycle. -/
def phase (step : Nat) : Nat := step &&& 7

/-- One invocation of `step_motor`: the list of (pin, level) writes issued,
in the fixed pin order `coil_pins[0..3]`. -/
def step_motor (step : Nat) : List (Nat × Nat) :=
  coil_pins.zip (half_step.getD (phase step) [])

/-- The safety limit from `main`: `const int safe_max = 20480;`
(a fixed compile-time constant, commented "5 * 4096 steps"). -/
def safe_max : Nat := 20480

/-- The `revolution_steps[3]` array: step counts between consecutive edges. -/
structure RevSteps where
  s0 : Nat
  s1 : Nat
  s2 : Nat
deriving DecidableEq

/-- Array store `revolution_steps[i] = v` (the program only writes
indices 0, 1, 2). -/
def RevSteps.write (rs : RevSteps) (i : Nat) (v : Nat) : RevSteps :=
  match i with
  | 0 => { rs with s0 := v }
  | 1 => { rs with s1 := v }
  | _ => { rs with s2 := v }

/-- `get_avg`: truncating average of the three recorded intervals. -/
def get_avg (rs : RevSteps) : Nat := (rs.s0 + rs.s1 + rs.s2) / 3

/-- The local state of `calibrate`'s do-while loop:
`step` (total half-steps taken), `prev` (`prev_state`), `count` (falling
edges seen), `es` (`edge_step`), `fef` (`first_edge_found`), `rs`
(the `revolution_steps` array). -/
structure LoopSt where
  step : Nat
  prev : Bool
  count : Nat
  es : Nat
  fef : Bool
  rs : RevSteps
deriving DecidableEq

/-- One iteration of `calibrate`'s do-while body. The sensor is modelled
as a function from read index to reading; the read issued after the n-th
half-step is `sensor n` (the read taken before the loop is `sensor 0`).
`true` = beam clear (pull-up high), `false` = beam blocked. -/
def calibIter (sensor : Nat → Bool) (st : LoopSt) : LoopSt :=
  let step1 := st.step + 1
  let es1 := if st.fef then st.es + 1 else st.es
  let cur := sensor step1
  if st.prev && !cur then
    if !st.fef then
      { step := step1, prev := cur, count := st.count + 1, es := es1,
        fef := true, rs := st.rs }
    else
      { step := step1, prev := cur, count := st.count + 1, es := 0,
        fef := st.fef, rs := st.rs.write (st.count - 1) es1 }
  else
    { step := step1, prev := cur, count := st.count, es := es1,
      fef := st.fef, rs := st.rs }

/-- `calibrate`'s do-while loop: run one iteration, stop when
`count >= 4 || step > max`, otherwise continue. `fuel` bounds the number of
iterations; since `step` increases by 1 per iteration and the loop stops as
soon as `step > max`, fuel `max + 1` is never exhausted. -/
def calibLoop (sensor : Nat → Bool) (max : Nat) : Nat → LoopSt → LoopSt
  | 0, st => st
  | fuel + 1, st =>
    let st1 := calibIter sensor st
    if 4 ≤ st1.count ∨ max < st1.step then st1
    else calibLoop sensor max fuel st1

/-- The loop state at exit of `calibrate`'s do-while loop, starting from
`step = 0`, `prev_state = gpio_get(SENSOR)`, counters zeroed, and the
caller's current `revolution_steps` array. -/
def calibFinal (sensor : Nat → Bool) (max : Nat) (rs : RevSteps) : LoopSt :=
  calibLoop sensor max (max + 1)
    { step := 0, prev := sensor 0, count := 0, es := 0, fef := false, rs := rs }

/-- `calibrate`: returns `(result, revolution_steps after the call,
final value of the step counter)`. `result` is `get_avg` of the recorded
intervals when at least 4 edges were seen, else `0` (failure). -/
def calibrate (sensor : Nat → Bool) (max : Nat) (rs : RevSteps) :
    Nat × RevSteps × Nat :=
  let stF := calibFinal sensor max rs
  ((if 4 ≤ stF.count then get_avg stF.rs else 0), stF.rs, stF.step)

/-- `run_motor`: the sequence of half-step writes issued.
`i_count = count * (steps_per_rev / 8)` with truncating division. -/
def run_motor (count steps_per_rev : Nat) : List (List (Nat × Nat)) :=
  (List.range (count * (steps_per_rev / 8))).map step_motor

/-- `check_if_nums`: true iff every character is an ASCII digit. -/
def check_if_nums (cs : List Char) : Bool :=
  cs.all Char.isDigit

/-- `atoi` as applied by `get_nums_from_a_string`: decimal value of a
digit-only character list. -/
def atoi (cs : List Char) : Nat :=
  cs.foldl (fun a c => a * 10 + (c.toNat - 48)) 0

/-- `get_nums_from_a_string`: rejects a leading `'0'` (returns 0), else
collects the digit characters and parses them; returns 0 when no digit is
present. `string[0]` of the empty C string is NUL, which is not `'0'`. -/
def get_nums_from_a_string (cs : List Char) : Nat :=
  if cs.headD '\x00' ≠ '0' then
    let digits := cs.filter Char.isDigit
    if 0 < digits.length then atoi digits else 0
  else 0

/-- `validate_run_input`: length at least 4, everything after index 3 is a
digit, and the character at index 3 is a space. -/
def validate_run_input (cs : List Char) : Bool :=
  decide (4 ≤ cs.length) && check_if_nums (cs.drop 4) && (cs.getD 3 '\x00' == ' ')

/-- The command a trimmed input line is interpreted as by `main`'s
dispatch chain. -/
inductive Command where
  | status
  | calib
  | run (n : Nat)
  | invalid
deriving DecidableEq

/-- `main`'s dispatch on a trimmed input line: exact `"status"`, exact
`"calib"`, then the `"run"` prefix (first three characters) with either a
validated `"run N"` argument or the bare three-character `"run"`. -/
def parse (s : String) : Command :=
  if s = "status" then .status
  else if s = "calib" then .calib
  else if s.data.take 3 = ['r', 'u', 'n'] then
    if validate_run_input s.data then
      .run (get_nums_from_a_string (s.data.drop 4))
    else if s.data.length = 3 then .run 8
    else .invalid
  else .invalid

/-- The process-wide mutable state of `main`: `steps_per_rev`, `avg`, and
the `revolution_steps` array. -/
structure MotorState where
  steps_per_rev : Nat
  avg : Nat
  revolution_steps : RevSteps
deriving DecidableEq

/-- `main`'s initial state: default 4096 steps per revolution, `avg = 0`,
`revolution_steps = {0, 0, 0}`. -/
def motorState0 : MotorState :=
  { steps_per_rev := 4096, avg := 0, revolution_steps := ⟨0, 0, 0⟩ }

/-- One iteration of `main`'s command loop, restricted to its effect on the
process state. Only the `"calib"` branch mutates state: `avg` is assigned
the calibration result unconditionally, `steps_per_rev` only when the
result is positive, and `revolution_steps` is whatever `calibrate` left in
the array. The sensor trace for the calibration is a parameter. -/
def mainStep (sensor : Nat → Bool) (st : MotorState) (input : String) :
    MotorState :=
  if input = "status" then st
  else if input = "calib" then
    let out := calibrate sensor safe_max st.revolution_steps
    { steps_per_rev := if 0 < out.1 then out.1 else st.steps_per_rev,
      avg := out.1,
      revolution_steps := out.2.1 }
  else st

/-- The two lines printed by the `"status"` branch of `main`. -/
def statusLines (st : MotorState) : List String :=
  if 0 < st.avg then
    ["Calibrated: yes", "Steps per revolution: " ++ toString st.steps_per_rev]
  else
    ["Calibrated: no", "Not available"]

/-- Number of half-step iterations issued by `main`'s `"run"` branch for a
given input line: `run_motor` is called only when the validated numeric
argument is positive, or with count 8 when the line is exactly `"run"`. -/
def runHalfSteps (st : MotorState) (s : String) : Nat :=
  if s = "status" then 0
  else if s = "calib" then 0
  else if s.data.take 3 = ['r', 'u', 'n'] then
    if validate_run_input s.data then
      let num_out := get_nums_from_a_string (s.data.drop 4)
      if 0 < num_out then (run_motor num_out st.steps_per_rev).length else 0
    else if s.data.length = 3 then (run_motor 8 st.steps_per_rev).length
    else 0
  else 0

/-- A simulated sensor whose beam is blocked exactly at reads 1, 1201,
2411 and 3616: falling edges spaced 1200, 1210 and 1205 half-steps apart. -/
def sensorA : Nat → Bool :=
  fun i => !(i == 1 || i == 1201 || i == 2411 || i == 3616)

/-- A simulated sensor blocked exactly at reads 1, 11, 21 and 32: falling
edges spaced 10, 10 and 11 half-steps apart. -/
def sensorB : Nat → Bool :=
  fun i => !(i == 1 || i == 11 || i == 21 || i == 32)

/-- A simulated sensor blocked at reads 1 and 11 and never again: only two
falling edges, 10 half-steps apart. -/
def sensorTwoEdges : Nat → Bool :=
  fun i => !(i == 1 || i == 11)

/-- A simulated sensor blocked at reads 1, 11 and 22 and never again: only
three falling edges, spaced 10 and 11 half-steps apart. -/
def sensorThreeEdges : Nat → Bool :=
  fun i => !(i == 1 || i == 11 || i == 22)

/-! ## Helper lemmas about the calibration loop -/

theorem calibLoop_succ (sensor : Nat → Bool) (max fuel : Nat) (st : LoopSt) :
    calibLoop sensor max (fuel + 1) st =
      if 4 ≤ (calibIter sensor st).count ∨ max < (calibIter sensor st).step
      then calibIter sensor st
      else calibLoop sensor max fuel (calibIter sensor st) := rfl

/-- With a sensor that reads the constant `b`, no iteration can see a
falling edge, so `count`, `fef` and `rs` never change and the loop runs
until the step counter first exceeds `max`. -/
theorem calibLoop_const (sensor : Nat → Bool) (b : Bool)
    (hs : ∀ i, sensor i = b) (max : Nat) :
    ∀ fuel step count es fef rs, count < 4 → step ≤ max → max < step + fuel →
    calibLoop sensor max fuel
        { step := step, prev := b, count := count, es := es, fef := fef, rs := rs } =
      { step := max + 1, prev := b, count := count,
        es := es + (max + 1 - step) * (if fef then 1 else 0), fef := fef, rs := rs } := by
  intro fuel
  induction fuel with
  | zero => intro step count es fef rs _ h1 h2; omega
  | succ n ih =>
    intro step count es fef rs hc h1 h2
    rw [calibLoop_succ]
    have hiter : calibIter sensor
        { step := step, prev := b, count := count, es := es, fef := fef, rs := rs } =
        { step := step + 1, prev := b, count := count,
          es := if fef then es + 1 else es, fef := fef, rs := rs } := by
      unfold calibIter
      simp only [hs (step + 1)]
      cases b
      · simp
      · simp
    rw [hiter]
    by_cases hstop : max < step + 1
    · have hstep : step = max := by omega
      simp only [if_pos (Or.inr hstop)]
      subst hstep
      cases fef
      · simp
      · simp
    · have hcont : ¬ (4 ≤ count ∨ max < step + 1) := by omega
      rw [if_neg hcont]
      rw [ih (step + 1) count (if fef then es + 1 else es) fef rs hc (by omega) (by omega)]
      cases fef
      · simp
      · simp
        omega

/-- Over a stretch of `k` reads that are all clear (`true`), starting with
`prev = true`, the loop sees no edge: it advances `step` by `k`,
accumulates `es` when the first edge has been found, and touches nothing
else (provided it neither stops nor exhausts fuel in between). -/
theorem calibLoop_clear_skip (sensor : Nat → Bool) (max : Nat) (k : Nat) :
    ∀ fuel step count es fef rs,
    (∀ j, step < j → j ≤ step + k → sensor j = true) → count < 4 → step + k ≤ max →
    calibLoop sensor max (fuel + k)
        { step := step, prev := true, count := count, es := es, fef := fef, rs := rs } =
      calibLoop sensor max fuel
        { step := step + k, prev := true, count := count,
          es := es + (if fef then k else 0), fef := fef, rs := rs } := by
  induction k with
  | zero => intro fuel step count es fef rs _ _ _; cases fef <;> simp
  | succ n ih =>
    intro fuel step count es fef rs hclear hc hmax
    have e1 : fuel + (n + 1) = (fuel + n) + 1 := by omega
    rw [e1, calibLoop_succ]
    have hiter : calibIter sensor
        { step := step, prev := true, count := count, es := es, fef := fef, rs := rs } =
        { step := step + 1, prev := true, count := count,
          es := if fef then es + 1 else es, fef := fef, rs := rs } := by
      unfold calibIter
      simp only [hclear (step + 1) (by omega) (by omega)]
      simp
    rw [hiter]
    have hcont : ¬ (4 ≤ count ∨ max < step + 1) := by omega
    rw [if_neg hcont]
    rw [ih fuel (step + 1) count (if fef then es + 1 else es) fef rs
      (fun j hj1 hj2 => hclear j (by omega) (by omega)) hc (by omega)]
    have e2 : step + 1 + n = step + (n + 1) := by omega
    rw [e2]
    cases fef with
    | false => simp
    | true =>
      have e3 : es + 1 + n = es + (n + 1) := by omega
      simp only [if_pos]
      rw [e3]

/-- Invariant of the calibration loop relative to the array contents `rs0`
at entry: `first_edge_found` tracks `1 ≤ count`; slots are untouched until
the edge that fills them arrives (the slot of the k-th interval is written
at edge count k+1); every filled slot holds a positive interval. -/
def CalibInv (rs0 : RevSteps) (st : LoopSt) : Prop :=
  (st.fef = true ↔ 1 ≤ st.count) ∧
  (st.count ≤ 1 → st.rs = rs0) ∧
  (st.count ≤ 2 → st.rs.s1 = rs0.s1 ∧ st.rs.s2 = rs0.s2) ∧
  (st.count ≤ 3 → st.rs.s2 = rs0.s2) ∧
  (2 ≤ st.count → 1 ≤ st.rs.s0) ∧
  (3 ≤ st.count → 1 ≤ st.rs.s1) ∧
  (4 ≤ st.count → 1 ≤ st.rs.s2)

theorem calibIter_inv (sensor : Nat → Bool) (rs0 : RevSteps) (st : LoopSt)
    (h : CalibInv rs0 st) : CalibInv rs0 (calibIter sensor st) := by
  obtain ⟨step, prev, count, es, fef, rs⟩ := st
  obtain ⟨a0, a1, a2⟩ := rs0
  obtain ⟨r0, r1, r2⟩ := rs
  simp only [CalibInv, calibIter] at *
  rcases count with _ | _ | _ | _ | n <;>
    cases fef <;> cases prev <;> cases hcur : sensor (step + 1) <;>
    simp_all [RevSteps.write]

theorem calibLoop_inv (sensor : Nat → Bool) (max : Nat) (rs0 : RevSteps) :
    ∀ fuel st, CalibInv rs0 st → CalibInv rs0 (calibLoop sensor max fuel st) := by
  intro fuel
  induction fuel with
  | zero => intro st h; exact h
  | succ n ih =>
    intro st h
    rw [calibLoop_succ]
    by_cases hstop : 4 ≤ (calibIter sensor st).count ∨ max < (calibIter sensor st).step
    · rw [if_pos hstop]
      exact calibIter_inv sensor rs0 st h
    · rw [if_neg hstop]
      exact ih (calibIter sensor st) (calibIter_inv sensor rs0 st h)

/-- The exit state of the calibration loop satisfies the invariant. -/
theorem calibFinal_inv (sensor : Nat → Bool) (max : Nat) (rs : RevSteps) :
    CalibInv rs (calibFinal sensor max rs) := by
  unfold calibFinal
  apply calibLoop_inv
  refine ⟨by simp, fun _ => rfl, fun _ => ⟨rfl, rfl⟩, fun _ => rfl, ?_, ?_, ?_⟩ <;>
    intro hc <;> simp at hc

/-- The calibration result is positive iff at least 4 falling edges were
seen: on 4 edges all three recorded intervals are positive, so the
truncating average is positive. -/
theorem calibrate_pos_iff (sensor : Nat → Bool) (max : Nat) (rs : RevSteps) :
    0 < (calibrate sensor max rs).1 ↔ 4 ≤ (calibFinal sensor max rs).count := by
  have hinv := calibFinal_inv sensor max rs
  obtain ⟨-, -, -, -, h4, h5, h6⟩ := hinv
  unfold calibrate
  constructor
  · intro hpos
    by_contra hlt
    simp only [if_neg hlt] at hpos
    omega
  · intro hge
    have hs0 := h4 (by omega)
    have hs1 := h5 (by omega)
    have hs2 := h6 (by omega)
    simp only [if_pos hge, get_avg]
    omega


/-- Relation between two calibration-loop runs over the same sensor that
started from different `revolution_steps` contents: the control state
(`step`, `prev`, `count`, `es`, `fef`) is identical, and every slot already
filled in this invocation (slot k is filled once `count ≥ k + 2`) holds the
same — measured — value in both runs. -/
def RsIndep (st st' : LoopSt) : Prop :=
  st.step = st'.step ∧ st.prev = st'.prev ∧ st.count = st'.count ∧
  st.es = st'.es ∧ st.fef = st'.fef ∧
  (2 ≤ st.count → st.rs.s0 = st'.rs.s0) ∧
  (3 ≤ st.count → st.rs.s1 = st'.rs.s1) ∧
  (4 ≤ st.count → st.rs.s2 = st'.rs.s2) ∧
  (st.fef = true ↔ 1 ≤ st.count)

theorem calibIter_rs_indep (sensor : Nat → Bool) (st st' : LoopSt)
    (h : RsIndep st st') : RsIndep (calibIter sensor st) (calibIter sensor st') := by
  obtain ⟨step, prev, count, es, fef, rs⟩ := st
  obtain ⟨step', prev', count', es', fef', rs'⟩ := st'
  obtain ⟨hstep, hprev, hcount, hes, hfef, h0, h1, h2, h3⟩ := h
  simp only at hstep hprev hcount hes hfef
  subst hstep hprev hcount hes hfef
  obtain ⟨a0, a1, a2⟩ := rs
  obtain ⟨b0, b1, b2⟩ := rs'
  simp only [RsIndep, calibIter] at *
  rcases count with _ | _ | _ | _ | n <;>
    cases fef <;> cases prev <;> cases hcur : sensor (step + 1) <;>
    simp_all [RevSteps.write]

theorem calibLoop_rs_indep (sensor : Nat → Bool) (max : Nat) :
    ∀ fuel (st st' : LoopSt), RsIndep st st' →
    RsIndep (calibLoop sensor max fuel st) (calibLoop sensor max fuel st') := by
  intro fuel
  induction fuel with
  | zero => exact fun st st' h => h
  | succ n ih =>
    intro st st' h
    rw [calibLoop_succ, calibLoop_succ]
    have h1 := calibIter_rs_indep sensor st st' h
    have hstep := h1.1
    have hcount := h1.2.2.1
    by_cases hstop : 4 ≤ (calibIter sensor st).count ∨ max < (calibIter sensor st).step
    · rw [if_pos hstop, if_pos (by rw [← hcount, ← hstep]; exact hstop)]
      exact h1
    · rw [if_neg hstop, if_neg (by rw [← hcount, ← hstep]; exact hstop)]
      exact ih _ _ h1

/-- The calibration loop's control trajectory, and the value deposited in
every slot it fills, do not depend on the previous contents of the
`revolution_steps` array. -/
theorem calibFinal_rs_indep (sensor : Nat → Bool) (max : Nat) (rs rs' : RevSteps) :
    RsIndep (calibFinal sensor max rs) (calibFinal sensor max rs') := by
  unfold calibFinal
  apply calibLoop_rs_indep
  refine ⟨rfl, rfl, rfl, rfl, rfl, ?_, ?_, ?_, by simp⟩ <;> intro hc <;> simp at hc

theorem calibLoop_one (sensor : Nat → Bool) (max fuel : Nat) (st st1 : LoopSt)
    (hiter : calibIter sensor st = st1)
    (hcont : ¬ (4 ≤ st1.count ∨ max < st1.step)) :
    calibLoop sensor max (fuel + 1) st = calibLoop sensor max fuel st1 := by
  rw [calibLoop_succ, hiter, if_neg hcont]

theorem calibLoop_halt (sensor : Nat → Bool) (max fuel : Nat) (st st1 : LoopSt)
    (hiter : calibIter sensor st = st1)
    (hstop : 4 ≤ st1.count ∨ max < st1.step) :
    calibLoop sensor max (fuel + 1) st = st1 := by
  rw [calibLoop_succ, hiter, if_pos hstop]

theorem sensorA_clear (j : Nat) (h1 : j ≠ 1) (h2 : j ≠ 1201) (h3 : j ≠ 2411)
    (h4 : j ≠ 3616) : sensorA j = true := by
  unfold sensorA
  simp [h1, h2, h3, h4]

/-- Full run of `calibrate` on the sensor with falling edges spaced
1200, 1210, 1205 half-steps apart: success with average 1205. -/
theorem calibrate_sensorA :
    calibrate sensorA safe_max ⟨0, 0, 0⟩ = (1205, ⟨1200, 1210, 1205⟩, 3616) := by
  have E1 : calibLoop sensorA 20480 20481 ⟨0, true, 0, 0, false, ⟨0, 0, 0⟩⟩ =
      calibLoop sensorA 20480 20480 ⟨1, false, 1, 0, true, ⟨0, 0, 0⟩⟩ :=
    calibLoop_one _ _ _ _ _ (by decide) (by decide)
  have E2 : calibLoop sensorA 20480 20480 ⟨1, false, 1, 0, true, ⟨0, 0, 0⟩⟩ =
      calibLoop sensorA 20480 20479 ⟨2, true, 1, 1, true, ⟨0, 0, 0⟩⟩ :=
    calibLoop_one _ _ _ _ _ (by decide) (by decide)
  have E3 : calibLoop sensorA 20480 20479 ⟨2, true, 1, 1, true, ⟨0, 0, 0⟩⟩ =
      calibLoop sensorA 20480 19281 ⟨1200, true, 1, 1199, true, ⟨0, 0, 0⟩⟩ := by
    have h := calibLoop_clear_skip sensorA 20480 1198 19281 2 1 1 true ⟨0, 0, 0⟩
      (fun j hj1 hj2 => sensorA_clear j (by omega) (by omega) (by omega) (by omega))
      (by norm_num) (by norm_num)
    norm_num at h
    exact h
  have E4 : calibLoop sensorA 20480 19281 ⟨1200, true, 1, 1199, true, ⟨0, 0, 0⟩⟩ =
      calibLoop sensorA 20480 19280 ⟨1201, false, 2, 0, true, ⟨1200, 0, 0⟩⟩ :=
    calibLoop_one _ _ _ _ _ (by decide) (by decide)
  have E5 : calibLoop sensorA 20480 19280 ⟨1201, false, 2, 0, true, ⟨1200, 0, 0⟩⟩ =
      calibLoop sensorA 20480 19279 ⟨1202, true, 2, 1, true, ⟨1200, 0, 0⟩⟩ :=
    calibLoop_one _ _ _ _ _ (by decide) (by decide)
  have E6 : calibLoop sensorA 20480 19279 ⟨1202, true, 2, 1, true, ⟨1200, 0, 0⟩⟩ =
      calibLoop sensorA 20480 18071 ⟨2410, true, 2, 1209, true, ⟨1200, 0, 0⟩⟩ := by
    have h := calibLoop_clear_skip sensorA 20480 1208 18071 1202 2 1 true ⟨1200, 0, 0⟩
      (fun j hj1 hj2 => sensorA_clear j (by omega) (by omega) (by omega) (by omega))
      (by norm_num) (by norm_num)
    norm_num at h
    exact h
  have E7 : calibLoop sensorA 20480 18071 ⟨2410, true, 2, 1209, true, ⟨1200, 0, 0⟩⟩ =
      calibLoop sensorA 20480 18070 ⟨2411, false, 3, 0, true, ⟨1200, 1210, 0⟩⟩ :=
    calibLoop_one _ _ _ _ _ (by decide) (by decide)
  have E8 : calibLoop sensorA 20480 18070 ⟨2411, false, 3, 0, true, ⟨1200, 1210, 0⟩⟩ =
      calibLoop sensorA 20480 18069 ⟨2412, true, 3, 1, true, ⟨1200, 1210, 0⟩⟩ :=
    calibLoop_one _ _ _ _ _ (by decide) (by decide)
  have E9 : calibLoop sensorA 20480 18069 ⟨2412, true, 3, 1, true, ⟨1200, 1210, 0⟩⟩ =
      calibLoop sensorA 20480 16866 ⟨3615, true, 3, 1204, true, ⟨1200, 1210, 0⟩⟩ := by
    have h := calibLoop_clear_skip sensorA 20480 1203 16866 2412 3 1 true ⟨1200, 1210, 0⟩
      (fun j hj1 hj2 => sensorA_clear j (by omega) (by omega) (by omega) (by omega))
      (by norm_num) (by norm_num)
    norm_num at h
    exact h
  have E10 : calibLoop sensorA 20480 16866 ⟨3615, true, 3, 1204, true, ⟨1200, 1210, 0⟩⟩ =
      ⟨3616, false, 4, 0, true, ⟨1200, 1210, 1205⟩⟩ :=
    calibLoop_halt _ _ 16865 _ _ (by decide) (by decide)
  have hLoop : calibFinal sensorA safe_max ⟨0, 0, 0⟩ =
      ⟨3616, false, 4, 0, true, ⟨1200, 1210, 1205⟩⟩ := by
    unfold calibFinal
    have hs0 : sensorA 0 = true := rfl
    rw [hs0]
    exact E1.trans (E2.trans (E3.trans (E4.trans (E5.trans (E6.trans
      (E7.trans (E8.trans (E9.trans E10))))))))
  simp only [calibrate]
  rw [hLoop]
  decide

/-- A sensor stuck at "beam clear": it never transitions. -/
def sensorStuck : Nat → Bool := fun _ => true

/-- `calibrate` under a sensor that never transitions: no falling edge is
ever seen, so the loop exits at the first step-counter value exceeding
`max`, the result is 0 (failure) and the interval array is returned
unchanged. -/
theorem calibrate_const (sensor : Nat → Bool) (b : Bool) (hs : ∀ i, sensor i = b)
    (max : Nat) (rs : RevSteps) : calibrate sensor max rs = (0, rs, max + 1) := by
  unfold calibrate calibFinal
  rw [hs 0]
  rw [calibLoop_const sensor b hs max (max + 1) 0 0 0 false rs (by omega) (by omega)
    (by omega)]
  norm_num

set_option maxRecDepth 4000 in
/-- Full run of `calibrate` on the sensor with falling edges spaced
10, 10, 11 half-steps apart: success with truncating average 10. -/
theorem calibrate_sensorB :
    calibrate sensorB safe_max ⟨0, 0, 0⟩ = (10, ⟨10, 10, 11⟩, 32) := by rfl

set_option maxRecDepth 4000 in
/-- The loop state after running `calibrate` on `sensorB`. -/
theorem calibFinal_sensorB :
    calibFinal sensorB safe_max ⟨0, 0, 0⟩ = ⟨32, false, 4, 0, true, ⟨10, 10, 11⟩⟩ := by rfl

/-- Unfolding of the `"calib"` branch of `main`'s command loop. -/
theorem mainStep_calib (sensor : Nat → Bool) (st : MotorState) :
    mainStep sensor st "calib" =
      { steps_per_rev :=
          if 0 < (calibrate sensor safe_max st.revolution_steps).1
          then (calibrate sensor safe_max st.revolution_steps).1
          else st.steps_per_rev,
        avg := (calibrate sensor safe_max st.revolution_steps).1,
        revolution_steps := (calibrate sensor safe_max st.revolution_steps).2.1 } := by
  unfold mainStep
  rw [if_neg (by decide : ¬ ("calib" : String) = "status"), if_pos rfl]

/-! ## Claim theorems -/

/-- C1: a calibration invocation fails exactly when fewer than 4 falling
edges were observed before the safety ceiling; on failure `main` leaves
`steps_per_rev` at its previous value, and across all commands
`steps_per_rev` changes only for a `"calib"` input whose calibration
outcome is a success (and then it becomes that outcome). -/
theorem calib_failure_preserves_steps_per_rev (sensor : Nat → Bool) (st : MotorState) :
    ((calibrate sensor safe_max st.revolution_steps).1 = 0 ↔
      (calibFinal sensor safe_max st.revolution_steps).count < 4) ∧
    ((calibrate sensor safe_max st.revolution_steps).1 = 0 →
      (mainStep sensor st "calib").steps_per_rev = st.steps_per_rev) ∧
    (∀ input : String, (mainStep sensor st input).steps_per_rev ≠ st.steps_per_rev →
      input = "calib" ∧ 0 < (calibrate sensor safe_max st.revolution_steps).1 ∧
      (mainStep sensor st input).steps_per_rev =
        (calibrate sensor safe_max st.revolution_steps).1) := by
  have hiff := calibrate_pos_iff sensor safe_max st.revolution_steps
  refine ⟨by omega, ?_, ?_⟩
  · intro h0
    rw [mainStep_calib, h0]
    simp
  · intro input hne
    by_cases hs : input = "status"
    · rw [hs] at hne
      simp [mainStep] at hne
    · by_cases hc : input = "calib"
      · subst hc
        rw [mainStep_calib] at hne ⊢
        by_cases hpos : 0 < (calibrate sensor safe_max st.revolution_steps).1
        · exact ⟨rfl, hpos, by rw [if_pos hpos]⟩
        · rw [if_neg hpos] at hne
          simp at hne
      · simp only [mainStep, if_neg hs, if_neg hc] at hne
        simp at hne

theorem calib_failure_preserves_steps_per_rev_witness :
    (mainStep sensorStuck motorState0 "calib").steps_per_rev = motorState0.steps_per_rev :=
  (calib_failure_preserves_steps_per_rev sensorStuck motorState0).2.1
    (by rw [calibrate_const sensorStuck true (fun _ => rfl) safe_max motorState0.revolution_steps])

/-- C2 counterexample: after the successful calibration on `sensorB`,
`steps_per_rev` is 10, yet the next calibration invocation (the sensor now
stuck) only gives up when the global step counter exceeds the fixed
constant 20480 — at step 20481, not at `5 * 10 + 1 = 51` as a ceiling of
5 × the current steps-per-revolution would require. -/
theorem safety_ceiling_not_five_times_current :
    (mainStep sensorB motorState0 "calib").steps_per_rev = 10 ∧
    (calibrate sensorStuck safe_max
      (mainStep sensorB motorState0 "calib").revolution_steps).2.2 = 20481 ∧
    (20481 : Nat) ≠ 5 * (mainStep sensorB motorState0 "calib").steps_per_rev + 1 := by
  have hmain : mainStep sensorB motorState0 "calib" =
      { steps_per_rev := 10, avg := 10, revolution_steps := ⟨10, 10, 11⟩ } := by
    rw [mainStep_calib]
    have hrs : motorState0.revolution_steps = ⟨0, 0, 0⟩ := rfl
    rw [hrs, calibrate_sensorB]
    norm_num
  rw [hmain]
  refine ⟨rfl, ?_, by norm_num⟩
  rw [calibrate_const sensorStuck true (fun _ => rfl) safe_max ⟨10, 10, 11⟩]
  norm_num [safe_max]

/-- C2 amended: the safety ceiling of every calibration invocation is the
fixed constant `safe_max = 20480 = 5 × 4096` half-steps (5 × the *default*
steps-per-revolution), independent of the current `steps_per_rev`: with a
never-transitioning sensor the loop gives up exactly when the global step
counter exceeds `safe_max`, whatever the motor state holds. -/
theorem safety_ceiling_fixed_constant (sensor : Nat → Bool) (b : Bool)
    (hs : ∀ i, sensor i = b) (st : MotorState) :
    safe_max = 5 * 4096 ∧
    (calibrate sensor safe_max st.revolution_steps).2.2 = safe_max + 1 := by
  refine ⟨by norm_num [safe_max], ?_⟩
  rw [calibrate_const sensor b hs safe_max st.revolution_steps]

theorem safety_ceiling_fixed_constant_witness :
    safe_max = 5 * 4096 ∧
    (calibrate sensorStuck safe_max motorState0.revolution_steps).2.2 = safe_max + 1 :=
  safety_ceiling_fixed_constant sensorStuck true (fun _ => rfl) motorState0

/-- C3: when 4 falling edges are observed the calibration result is the
truncating average `(s0 + s1 + s2) / 3` of the three recorded intervals;
in particular intervals 1200, 1210, 1205 give `Success 1205` and intervals
10, 10, 11 (sum 31) give 10. -/
theorem calib_success_truncating_average (sensor : Nat → Bool) (max : Nat)
    (rs : RevSteps) (h4 : 4 ≤ (calibFinal sensor max rs).count) :
    ((calibrate sensor max rs).1 = get_avg (calibFinal sensor max rs).rs ∧
      get_avg (calibFinal sensor max rs).rs =
        ((calibFinal sensor max rs).rs.s0 + (calibFinal sensor max rs).rs.s1 +
          (calibFinal sensor max rs).rs.s2) / 3) ∧
    calibrate sensorA safe_max ⟨0, 0, 0⟩ = (1205, ⟨1200, 1210, 1205⟩, 3616) ∧
    calibrate sensorB safe_max ⟨0, 0, 0⟩ = (10, ⟨10, 10, 11⟩, 32) ∧
    get_avg ⟨10, 10, 11⟩ = 10 ∧ (10 + 10 + 11 : Nat) / 3 = 10 := by
  refine ⟨⟨?_, rfl⟩, calibrate_sensorA, calibrate_sensorB, by decide, by decide⟩
  simp only [calibrate, if_pos h4]

theorem calib_success_truncating_average_witness :
    (calibrate sensorA safe_max ⟨0, 0, 0⟩).1 =
      get_avg (calibFinal sensorA safe_max ⟨0, 0, 0⟩).rs :=
  (calib_success_truncating_average sensorA safe_max ⟨0, 0, 0⟩
    ((calibrate_pos_iff sensorA safe_max ⟨0, 0, 0⟩).mp
      (by rw [calibrate_sensorA]; norm_num))).1.1

/-- C4: `run_motor` issues exactly `count * (steps_per_rev / 8)` half-steps
(truncating division, so the last partial eighth is dropped when
`steps_per_rev` is not a multiple of 8); `run_motor 8 4096` issues exactly
4096 half-steps and `run_motor 0 4096` issues none. -/
theorem run_motor_halfstep_count (count steps_per_rev : Nat)
    (_hc : 0 < count) (_hs : 0 < steps_per_rev) :
    (run_motor count steps_per_rev).length = count * (steps_per_rev / 8) ∧
    (run_motor 8 4096).length = 4096 ∧
    run_motor 0 4096 = [] ∧
    (run_motor 8 4100).length = 4096 := by
  refine ⟨by simp [run_motor], by simp [run_motor], by simp [run_motor], ?_⟩
  simp [run_motor]

theorem run_motor_halfstep_count_witness :
    0 < 3 ∧ 0 < 20 ∧ (run_motor 3 20).length = 3 * (20 / 8) :=
  ⟨by norm_num, by norm_num,
    (run_motor_halfstep_count 3 20 (by norm_num) (by norm_num)).1⟩

/-- C5: the dispatch of `main` interprets `"run 12"` as `Run 12`, `"run1"`
(no separating space) as invalid, the bare `"run"` as `Run 8`, and
`"run -1"` (non-digit argument) as invalid. -/
theorem parse_run_command_forms :
    parse "run 12" = Command.run 12 ∧ parse "run1" = Command.invalid ∧
    parse "run" = Command.run 8 ∧ parse "run -1" = Command.invalid := by
  decide

/-- C6: `get_nums_from_a_string` returns 0 on the empty string and on any
string starting with `'0'` (including `"0"` and `"012"`); on a digit
string not starting with `'0'` it returns the decimal value (e.g. `"12"`
is 12); and a `run` command whose extracted number is 0 issues no
half-step iterations. -/
theorem extract_number_rules :
    (∀ cs : List Char, cs.headD '\x00' = '0' → get_nums_from_a_string cs = 0) ∧
    (∀ cs : List Char, (∀ c ∈ cs, c.isDigit = true) → cs.headD '\x00' ≠ '0' →
      get_nums_from_a_string cs = atoi cs) ∧
    get_nums_from_a_string "0".data = 0 ∧
    get_nums_from_a_string "012".data = 0 ∧
    get_nums_from_a_string "12".data = 12 ∧
    get_nums_from_a_string "".data = 0 ∧
    (∀ (st : MotorState) (s : String), parse s = Command.run 0 →
      runHalfSteps st s = 0) := by
  refine ⟨?_, ?_, by decide, by decide, by decide, by decide, ?_⟩
  · intro cs h
    unfold get_nums_from_a_string
    rw [if_neg (not_not_intro h)]
  · intro cs hdig hhead
    have hfilter : cs.filter Char.isDigit = cs := List.filter_eq_self.mpr hdig
    simp only [get_nums_from_a_string, if_pos hhead, hfilter]
    rcases cs with _ | ⟨c, cs⟩
    · simp [atoi]
    · simp
  · intro st s hp
    simp only [parse] at hp
    simp only [runHalfSteps]
    split_ifs at hp ⊢ <;> simp_all

theorem extract_number_rules_witness :
    get_nums_from_a_string ['0', '5'] = 0 ∧
    get_nums_from_a_string ['4', '2'] = atoi ['4', '2'] ∧
    runHalfSteps motorState0 "run 0" = 0 :=
  ⟨extract_number_rules.1 ['0', '5'] (by decide),
    extract_number_rules.2.1 ['4', '2'] (by decide) (by decide),
    extract_number_rules.2.2.2.2.2.2 motorState0 "run 0" (by decide)⟩

/-- C7: a sensor with a constant reading yields no falling edge, so
calibration returns failure (0) exactly when the global step counter first
exceeds the safety ceiling — the final counter value is `max + 1` — and
the three `revolution_steps` slots are returned exactly as they were. -/
theorem constant_sensor_fails_at_ceiling (sensor : Nat → Bool) (b : Bool)
    (hs : ∀ i, sensor i = b) (max : Nat) (rs : RevSteps) :
    calibrate sensor max rs = (0, rs, max + 1) :=
  calibrate_const sensor b hs max rs

theorem constant_sensor_fails_at_ceiling_witness :
    calibrate (fun _ => false) 5 ⟨3, 4, 5⟩ = (0, ⟨3, 4, 5⟩, 6) :=
  constant_sensor_fails_at_ceiling (fun _ => false) false (fun _ => rfl) 5 ⟨3, 4, 5⟩

/-- C8: the driven phase is 8-periodic in the step counter and equals
`n % 8`, always in `0..7`; `step_motor` writes row `n % 8` of the fixed
8×4 half-step table to the 4 pins in fixed order. -/
theorem phase_mod8_periodic (n : Nat) :
    phase n = phase (n + 8) ∧ phase n = n % 8 ∧ phase n < 8 ∧
    step_motor n = coil_pins.zip (half_step.getD (n % 8) []) ∧
    half_step.length = 8 ∧ coil_pins.length = 4 ∧
    half_step.map List.length = [4, 4, 4, 4, 4, 4, 4, 4] := by
  have hmod : ∀ m : Nat, phase m = m % 8 := by
    intro m
    have h7 : (7 : Nat) = 2 ^ 3 - 1 := by norm_num
    rw [phase, h7, Nat.and_pow_two_sub_one_eq_mod]
  refine ⟨?_, hmod n, ?_, ?_, by decide, by decide, by decide⟩
  · rw [hmod n, hmod (n + 8), Nat.add_mod_right]
  · rw [hmod n]
    exact Nat.mod_lt n (by norm_num)
  · rw [step_motor, hmod n]

/-- C9: a failed calibration after a successful one overwrites `avg` with
0, so `status` reports "Calibrated: no" / "Not available", while
`steps_per_rev` still holds the earlier success value and subsequent run
commands use it. -/
theorem failed_calib_resets_status_keeps_steps (s1 s2 : Nat → Bool) (st : MotorState)
    (h1 : 0 < (calibrate s1 safe_max st.revolution_steps).1)
    (h2 : (calibrate s2 safe_max (mainStep s1 st "calib").revolution_steps).1 = 0) :
    (mainStep s2 (mainStep s1 st "calib") "calib").avg = 0 ∧
    (mainStep s2 (mainStep s1 st "calib") "calib").steps_per_rev =
      (calibrate s1 safe_max st.revolution_steps).1 ∧
    statusLines (mainStep s2 (mainStep s1 st "calib") "calib") =
      ["Calibrated: no", "Not available"] ∧
    runHalfSteps (mainStep s2 (mainStep s1 st "calib") "calib") "run" =
      (run_motor 8 (calibrate s1 safe_max st.revolution_steps).1).length := by
  have hst1 : (mainStep s1 st "calib").steps_per_rev =
      (calibrate s1 safe_max st.revolution_steps).1 := by
    rw [mainStep_calib s1 st]
    simp [h1]
  have hst2 : mainStep s2 (mainStep s1 st "calib") "calib" =
      { steps_per_rev := (mainStep s1 st "calib").steps_per_rev,
        avg := 0,
        revolution_steps :=
          (calibrate s2 safe_max (mainStep s1 st "calib").revolution_steps).2.1 } := by
    rw [mainStep_calib s2 (mainStep s1 st "calib"), h2]
    simp
  rw [hst2]
  refine ⟨rfl, hst1, by simp [statusLines], ?_⟩
  simp only [runHalfSteps]
  rw [if_neg (by decide : ¬ ("run" : String) = "status"),
    if_neg (by decide : ¬ ("run" : String) = "calib"),
    if_pos (by decide : ("run" : String).data.take 3 = ['r', 'u', 'n'])]
  rw [if_neg (by decide : ¬ validate_run_input ("run" : String).data = true),
    if_pos (by decide : ("run" : String).data.length = 3)]
  rw [hst1]

theorem failed_calib_resets_status_keeps_steps_witness :
    (mainStep sensorStuck (mainStep sensorB motorState0 "calib") "calib").avg = 0 ∧
    (mainStep sensorStuck (mainStep sensorB motorState0 "calib") "calib").steps_per_rev = 10 ∧
    statusLines (mainStep sensorStuck (mainStep sensorB motorState0 "calib") "calib") =
      ["Calibrated: no", "Not available"] := by
  have h1 : 0 < (calibrate sensorB safe_max motorState0.revolution_steps).1 := by
    have : motorState0.revolution_steps = ⟨0, 0, 0⟩ := rfl
    rw [this, calibrate_sensorB]
    norm_num
  have h2 : (calibrate sensorStuck safe_max
      (mainStep sensorB motorState0 "calib").revolution_steps).1 = 0 := by
    rw [calibrate_const sensorStuck true (fun _ => rfl) safe_max
      (mainStep sensorB motorState0 "calib").revolution_steps]
  have h := failed_calib_resets_status_keeps_steps sensorB sensorStuck motorState0 h1 h2
  refine ⟨h.1, ?_, h.2.2.1⟩
  rw [h.2.1]
  have : motorState0.revolution_steps = ⟨0, 0, 0⟩ := rfl
  rw [this, calibrate_sensorB]

/-- C10: a failed calibration that saw k falling edges with 2 ≤ k ≤ 3
overwrites the first k−1 interval slots with the newly measured intervals —
the final contents of those slots are the same whatever the array held
before the invocation — while the later slots keep their prior values; a
failed calibration seeing at most 1 edge leaves all three slots unchanged.
Concretely, two edges 10 apart under ceiling 50 fail but overwrite slot 0
of `{7, 8, 9}` with the measured 10, and three edges spaced 10 and 11
under ceiling 60 fail but overwrite slots 0 and 1 with the measured
10 and 11. -/
theorem partial_calib_slot_writes (sensor : Nat → Bool) (max : Nat) (rs0 : RevSteps) :
    ((calibFinal sensor max rs0).count = 2 →
      (calibrate sensor max rs0).1 = 0 ∧
      (calibFinal sensor max rs0).rs.s1 = rs0.s1 ∧
      (calibFinal sensor max rs0).rs.s2 = rs0.s2 ∧
      (∀ rs1 : RevSteps,
        (calibFinal sensor max rs1).count = (calibFinal sensor max rs0).count ∧
        (calibFinal sensor max rs1).rs.s0 = (calibFinal sensor max rs0).rs.s0)) ∧
    ((calibFinal sensor max rs0).count = 3 →
      (calibrate sensor max rs0).1 = 0 ∧
      (calibFinal sensor max rs0).rs.s2 = rs0.s2 ∧
      (∀ rs1 : RevSteps,
        (calibFinal sensor max rs1).count = (calibFinal sensor max rs0).count ∧
        (calibFinal sensor max rs1).rs.s0 = (calibFinal sensor max rs0).rs.s0 ∧
        (calibFinal sensor max rs1).rs.s1 = (calibFinal sensor max rs0).rs.s1)) ∧
    ((calibFinal sensor max rs0).count ≤ 1 →
      (calibrate sensor max rs0).1 = 0 ∧ (calibFinal sensor max rs0).rs = rs0) ∧
    calibrate sensorTwoEdges 50 ⟨7, 8, 9⟩ = (0, ⟨10, 8, 9⟩, 51) ∧
    calibrate sensorThreeEdges 60 ⟨7, 8, 9⟩ = (0, ⟨10, 11, 9⟩, 61) := by
  obtain ⟨-, h1, h2, h3, -, -, -⟩ := calibFinal_inv sensor max rs0
  refine ⟨?_, ?_, ?_, by decide, by decide⟩
  · intro hc
    obtain ⟨e1, e2⟩ := h2 (by omega)
    refine ⟨by simp only [calibrate]; rw [if_neg (by omega)], e1, e2, ?_⟩
    intro rs1
    obtain ⟨-, -, hcnt, -, -, hs0, -, -, -⟩ := calibFinal_rs_indep sensor max rs1 rs0
    exact ⟨hcnt, hs0 (by omega)⟩
  · intro hc
    have e2 := h3 (by omega)
    refine ⟨by simp only [calibrate]; rw [if_neg (by omega)], e2, ?_⟩
    intro rs1
    obtain ⟨-, -, hcnt, -, -, hs0, hs1, -, -⟩ := calibFinal_rs_indep sensor max rs1 rs0
    exact ⟨hcnt, hs0 (by omega), hs1 (by omega)⟩
  · intro hc
    exact ⟨by simp only [calibrate]; rw [if_neg (by omega)], h1 hc⟩

theorem partial_calib_slot_writes_witness :
    ((calibrate sensorTwoEdges 50 ⟨7, 8, 9⟩).1 = 0 ∧
      (calibFinal sensorTwoEdges 50 ⟨7, 8, 9⟩).rs.s1 = 8 ∧
      (calibFinal sensorTwoEdges 50 ⟨7, 8, 9⟩).rs.s2 = 9 ∧
      (∀ rs1 : RevSteps,
        (calibFinal sensorTwoEdges 50 rs1).count =
          (calibFinal sensorTwoEdges 50 ⟨7, 8, 9⟩).count ∧
        (calibFinal sensorTwoEdges 50 rs1).rs.s0 =
          (calibFinal sensorTwoEdges 50 ⟨7, 8, 9⟩).rs.s0)) ∧
    ((calibrate sensorThreeEdges 60 ⟨7, 8, 9⟩).1 = 0 ∧
      (calibFinal sensorThreeEdges 60 ⟨7, 8, 9⟩).rs.s2 = 9 ∧
      (∀ rs1 : RevSteps,
        (calibFinal sensorThreeEdges 60 rs1).count =
          (calibFinal sensorThreeEdges 60 ⟨7, 8, 9⟩).count ∧
        (calibFinal sensorThreeEdges 60 rs1).rs.s0 =
          (calibFinal sensorThreeEdges 60 ⟨7, 8, 9⟩).rs.s0 ∧
        (calibFinal sensorThreeEdges 60 rs1).rs.s1 =
          (calibFinal sensorThreeEdges 60 ⟨7, 8, 9⟩).rs.s1)) :=
  ⟨(partial_calib_slot_writes sensorTwoEdges 50 ⟨7, 8, 9⟩).1 (by decide),
    (partial_calib_slot_writes sensorThreeEdges 60 ⟨7, 8, 9⟩).2.1 (by decide)⟩
